import Mathlib

/-!
Verification of the homepage builder service core.

The definitions below are a shallow embedding of the service's generation
pipeline (`src/generator.js`) and render subsystem (the screenshot service).
Pure JavaScript functions become Lean functions over `String`/`List Char`;
the stateful screenshot service becomes an explicit state type with total
transition functions; JavaScript exceptions become `Except` results; the
JavaScript object literals used as string-keyed lookup tables become
association lists queried with `List.lookup`.
-/

set_option maxRecDepth 4096

/-- A recommendation item as consumed by the generator: `type`, `title`,
`description` (the remaining validated fields are not read by the embedded
functions). -/
structure Recommendation where
  type : String
  title : String
  description : String
deriving DecidableEq, Repr

/-- The `business_info` record of a validated analysis result, with the
fields read by the generator.  Fields the validator allows to be null or
absent are `Option`s. -/
structure BusinessInfo where
  name : String
  business_type : String
  industry : String
  description : Option String
  services : Option (List String)
  location : Option String
  phone : Option String
deriving DecidableEq, Repr

/-- A three-color palette `{primary, secondary, accent}`. -/
structure Palette where
  primary : String
  secondary : String
  accent : String
deriving DecidableEq, Repr

/-- JavaScript truthiness of a nullable string: `null` and `""` are falsy,
every other string is truthy. -/
def jsTruthy : Option String → Bool
  | none => false
  | some s => !(s == "")

/-- Embedding of `_determineFeaturesIncluded` (generator.js lines 405-434):
the successive `features.push(...)` calls become list appends. -/
def determineFeaturesIncluded (recommendations : List Recommendation)
    (includeBooking : Bool) (stylePreference : String) : List String :=
  let features := ["responsive_design", "modern_layout"]
  let features := if stylePreference = "modern" then
    features ++ ["modern_typography", "gradient_backgrounds"] else features
  let recTypes := recommendations.map (fun r => r.type)
  let features := if recTypes.contains "mobile_optimization" then
    features ++ ["mobile_optimized"] else features
  let features := if recTypes.contains "seo_optimization" then
    features ++ ["seo_optimized"] else features
  let features := if recTypes.contains "conversion_optimization" then
    features ++ ["conversion_optimized"] else features
  let features := if includeBooking then
    features ++ ["booking_integration"] else features
  features ++ ["call_to_action", "contact_section", "services_showcase"]

/-- The feature list exactly as the specification words it: a fixed prefix,
a style-gated block, one token per known recommendation type present, a
booking-gated token, and a fixed suffix, concatenated in that order. -/
def featuresIncludedSpec (recommendations : List Recommendation)
    (includeBooking : Bool) (stylePreference : String) : List String :=
  ["responsive_design", "modern_layout"]
  ++ (if stylePreference = "modern" then
        ["modern_typography", "gradient_backgrounds"] else [])
  ++ (if (recommendations.map (fun r => r.type)).contains "mobile_optimization" then
        ["mobile_optimized"] else [])
  ++ (if (recommendations.map (fun r => r.type)).contains "seo_optimization" then
        ["seo_optimized"] else [])
  ++ (if (recommendations.map (fun r => r.type)).contains "conversion_optimization" then
        ["conversion_optimized"] else [])
  ++ (if includeBooking then ["booking_integration"] else [])
  ++ ["call_to_action", "contact_section", "services_showcase"]

/-- C1: for every recommendations list, includeBooking flag and
stylePreference, `_determineFeaturesIncluded` returns exactly the ordered
list described by the specification: `[responsive_design, modern_layout]`,
then `modern_typography` and `gradient_backgrounds` exactly when the style
is `"modern"`, then one feature token per known recommendation type present
anywhere in the list (at most once each, in the fixed mobile/seo/conversion
order), then `booking_integration` exactly when booking is requested, and
finally `call_to_action`, `contact_section`, `services_showcase`. -/
theorem featuresIncluded_matches_spec
    (recommendations : List Recommendation) (includeBooking : Bool)
    (stylePreference : String) :
    determineFeaturesIncluded recommendations includeBooking stylePreference
      = featuresIncludedSpec recommendations includeBooking stylePreference := by
  simp only [determineFeaturesIncluded, featuresIncludedSpec]
  split_ifs <;> rfl

/-- The industry-to-palette table of `_getBaseColors` (generator.js lines
368-376), as written in the source: six industry keys plus `default`. -/
def industryColorsTable : List (String × Palette) :=
  [("healthcare", ⟨"#10B981", "#059669", "#3B82F6"⟩),
   ("food_and_beverage", ⟨"#F59E0B", "#D97706", "#EF4444"⟩),
   ("home_services", ⟨"#3B82F6", "#1E40AF", "#F59E0B"⟩),
   ("automotive", ⟨"#DC2626", "#B91C1C", "#374151"⟩),
   ("beauty_and_wellness", ⟨"#EC4899", "#DB2777", "#8B5CF6"⟩),
   ("professional_services", ⟨"#1F2937", "#111827", "#3B82F6"⟩),
   ("default", ⟨"#3B82F6", "#1E40AF", "#10B981"⟩)]

/-- The `default` palette entry of `industryColorsTable`. -/
def defaultPalette : Palette := ⟨"#3B82F6", "#1E40AF", "#10B981"⟩

/-- Embedding of `_getBaseColors` (generator.js lines 357-379): a truthy
`colorScheme` short-circuits to a fixed palette; otherwise the industry is
looked up in the table with the `default` entry as fallback. -/
def getBaseColors (colorScheme : Option String) (industry : String) : Palette :=
  if jsTruthy colorScheme then ⟨"#3B82F6", "#1E40AF", "#EF4444"⟩
  else (List.lookup industry industryColorsTable).getD defaultPalette

/-- A color-scheme string accepted by the request validator's pattern
`^#[0-9A-Fa-f]{6}$`. -/
def isHexColor (s : String) : Bool :=
  match s.toList with
  | c :: rest => c = '#' && rest.length = 6 &&
      rest.all (fun d => ('0' ≤ d && d ≤ '9') || ('A' ≤ d && d ≤ 'F') || ('a' ≤ d && d ≤ 'f'))
  | [] => false

theorem ne_empty_of_isHexColor {s : String} (h : isHexColor s = true) : s ≠ "" := by
  intro he
  subst he
  simp [isHexColor] at h

/-- C2: whenever a color scheme is explicitly supplied (any non-empty
string, which covers every value accepted by the validator), the palette
used for the custom CSS variables is the fixed
`{#3B82F6, #1E40AF, #EF4444}` palette, regardless of the supplied value and
of the industry; with no color scheme, the industry catalog palette is used
— in particular `healthcare` yields `{#10B981, #059669, #3B82F6}`. -/
theorem baseColors_ignores_supplied_scheme :
    (∀ (s : String) (industry : String), s ≠ "" →
      getBaseColors (some s) industry = ⟨"#3B82F6", "#1E40AF", "#EF4444"⟩)
    ∧ getBaseColors none "healthcare" = ⟨"#10B981", "#059669", "#3B82F6"⟩ := by
  constructor
  · intro s industry h
    simp [getBaseColors, jsTruthy, h]
  · rfl

/-- Witness for C2 at the validated scheme `"#FF0000"` and industry
`"healthcare"`. -/
theorem baseColors_ignores_supplied_scheme_witness :
    ("#FF0000" : String) ≠ "" ∧
      getBaseColors (some "#FF0000") "healthcare"
        = ⟨"#3B82F6", "#1E40AF", "#EF4444"⟩ :=
  ⟨by decide, baseColors_ignores_supplied_scheme.1 "#FF0000" "healthcare" (by decide)⟩

/-- The industry-to-guidance table of `_getIndustryTemplate` (generator.js
lines 245-301), with the exact template strings: seven industry keys plus
`default`. -/
def templatesTable : List (String × String) :=
  [("home_services", "\n- Emphasize trust and reliability with reviews/testimonials\n- Include service area coverage map\n- Feature emergency contact prominently\n- Add before/after photos or service galleries\n- Include licensing/insurance information"),
   ("healthcare", "\n- Emphasize professionalism and trust\n- Include practitioner credentials and certifications\n- Feature patient testimonials (anonymized)\n- Add online appointment booking\n- Include office hours and location prominently"),
   ("food_and_beverage", "\n- Showcase menu highlights with appetizing descriptions\n- Include high-quality food photography placeholders\n- Feature customer reviews and ratings\n- Add online ordering or reservation system\n- Include location, hours, and delivery info"),
   ("automotive", "\n- Emphasize expertise and certifications\n- Include service guarantees and warranties\n- Feature customer testimonials\n- Add service appointment booking\n- Include accepted insurance and payment methods"),
   ("beauty_and_wellness", "\n- Showcase services with before/after examples\n- Include practitioner credentials and specialties\n- Feature client transformations and testimonials\n- Add online booking system\n- Include pricing and package information"),
   ("professional_services", "\n- Emphasize expertise and credentials\n- Include case studies or success stories\n- Feature client testimonials\n- Add consultation booking\n- Include clear service descriptions and pricing"),
   ("retail", "\n- Showcase product highlights with images\n- Include customer reviews and ratings\n- Feature special offers and promotions\n- Add online shopping or catalog\n- Include store location and hours"),
   ("default", "\n- Focus on clear value proposition\n- Include customer testimonials\n- Feature key services prominently\n- Add clear contact methods\n- Include business credentials and trust signals")]

/-- The `default` guidance entry of `templatesTable`. -/
def defaultTemplate : String :=
  "\n- Focus on clear value proposition\n- Include customer testimonials\n- Feature key services prominently\n- Add clear contact methods\n- Include business credentials and trust signals"

/-- Embedding of `_getIndustryTemplate` (generator.js lines 244-304):
table lookup with the `default` entry as fallback; the `businessType`
parameter is accepted but unused, as in the source. -/
def getIndustryTemplate (industry : String) (_businessType : String) : String :=
  (List.lookup industry templatesTable).getD defaultTemplate

/-- `containsSub needle text` decides whether `needle` occurs as a
contiguous substring of `text` (the embedding of JavaScript
`String.prototype.includes`). -/
def containsSub (needle : List Char) : List Char → Bool
  | [] => needle.isEmpty
  | c :: rest => needle.isPrefixOf (c :: rest) || containsSub needle rest

/-- Substring test on `String`s via `containsSub`. -/
def strContains (s pat : String) : Bool :=
  containsSub pat.toList s.toList

/-- C8 counterexample: the palette catalog of `_getBaseColors` has no entry
for the key `"retail"`, although the guidance catalog of
`_getIndustryTemplate` does — the two catalogs do not cover the same set of
seven industry keys. -/
theorem palette_catalog_missing_retail :
    List.lookup "retail" industryColorsTable = none
    ∧ (List.lookup "retail" templatesTable).isSome = true := by
  constructor
  · rfl
  · rfl

/-- C8 (amended): `templateFor` and `paletteFor` are total deterministic
lookups; the guidance catalog has an entry for each of the seven industry
keys, the palette catalog only for six of them — `"retail"` has no palette
entry and receives the default palette exactly like an unrecognized key —
and for any key absent from a catalog the corresponding function returns
that catalog's default entry. -/
theorem catalog_totality_amended :
    (∀ k ∈ ["home_services", "healthcare", "food_and_beverage", "automotive",
            "beauty_and_wellness", "professional_services", "retail"],
        (List.lookup k templatesTable).isSome = true)
    ∧ (∀ k ∈ ["home_services", "healthcare", "food_and_beverage", "automotive",
              "beauty_and_wellness", "professional_services"],
        (List.lookup k industryColorsTable).isSome = true)
    ∧ List.lookup "retail" industryColorsTable = none
    ∧ getBaseColors none "retail" = defaultPalette
    ∧ (∀ k bt, List.lookup k templatesTable = none →
        getIndustryTemplate k bt = defaultTemplate)
    ∧ (∀ k, List.lookup k industryColorsTable = none →
        getBaseColors none k = defaultPalette) := by
  refine ⟨by decide, by decide, rfl, rfl, ?_, ?_⟩
  · intro k bt h
    simp [getIndustryTemplate, h]
  · intro k h
    simp [getBaseColors, jsTruthy, h]

/-- Witness for C8 (amended): `"healthcare"` is in both catalogs, and the
unknown key `"florist"` falls through to the default entries. -/
theorem catalog_totality_amended_witness :
    (List.lookup "healthcare" templatesTable).isSome = true
    ∧ (List.lookup "healthcare" industryColorsTable).isSome = true
    ∧ List.lookup "florist" templatesTable = none
    ∧ getIndustryTemplate "florist" "bakery" = defaultTemplate
    ∧ List.lookup "florist" industryColorsTable = none
    ∧ getBaseColors none "florist" = defaultPalette :=
  ⟨catalog_totality_amended.1 "healthcare" (by decide),
   catalog_totality_amended.2.1 "healthcare" (by decide),
   by rfl,
   catalog_totality_amended.2.2.2.2.1 "florist" "bakery" (by rfl),
   by rfl,
   catalog_totality_amended.2.2.2.2.2 "florist" (by rfl)⟩

/-- The closed recommendation-type-to-phrase lookup of
`_generateImprovementDescription` (the `switch` on `rec.type`). -/
def improvementPhrase (t : String) : String :=
  if t = "design_improvement" then "modern design"
  else if t = "mobile_optimization" then "mobile optimization"
  else if t = "seo_optimization" then "SEO optimization"
  else if t = "conversion_optimization" then "conversion optimization"
  else if t = "performance_boost" then "performance improvements"
  else "website enhancement"

/-- De-duplication preserving first-seen order, the behavior of the
JavaScript `[...new Set(xs)]` idiom. -/
def dedupFirstAux (seen : List String) : List String → List String
  | [] => []
  | x :: xs =>
    if seen.contains x then dedupFirstAux seen xs
    else x :: dedupFirstAux (x :: seen) xs

/-- De-duplication of a list preserving first occurrences. -/
def dedupFirst (l : List String) : List String :=
  dedupFirstAux [] l

/-- Embedding of `_generateImprovementDescription` (generator.js lines
439-466): the successive reassignments of `description` become lets. -/
def generateImprovementDescription (recommendations : List Recommendation)
    (featuresIncluded : List String) : String :=
  let numRecommendations := recommendations.length
  let numFeatures := featuresIncluded.length
  let description := "Implemented " ++ toString numRecommendations ++ " key improvements including "
  let improvementTypes := recommendations.map (fun r => improvementPhrase r.type)
  let uniqueTypes := dedupFirst improvementTypes
  let description := description ++ String.intercalate ", " (uniqueTypes.take 3)
  let description := if uniqueTypes.length > 3 then
    description ++ ", and " ++ toString (uniqueTypes.length - 3) ++ " other improvements"
  else description
  description ++ ". Features " ++ toString numFeatures ++ " modern web components for enhanced user experience and business growth."

/-- The improvement narrative exactly as the specification words it: the
recommendation types mapped through the closed lookup, de-duplicated
preserving first-seen order, the first 3 distinct phrases joined with
`", "`, an `"and N other improvements"` clause exactly when more than 3
distinct phrases exist, inside the fixed sentence template stating the
recommendation count and the feature count. -/
def improvementNarrativeSpec (recommendations : List Recommendation)
    (featuresIncluded : List String) : String :=
  let phrases := dedupFirst (recommendations.map (fun r => improvementPhrase r.type))
  "Implemented " ++ toString recommendations.length ++ " key improvements including "
  ++ String.intercalate ", " (phrases.take 3)
  ++ (if phrases.length > 3 then
        ", and " ++ toString (phrases.length - 3) ++ " other improvements" else "")
  ++ ". Features " ++ toString featuresIncluded.length ++ " modern web components for enhanced user experience and business growth."

/-- The four-recommendation literal scenario of the specification. -/
def scenarioRecommendations : List Recommendation :=
  [⟨"design_improvement", "t1", "d1"⟩, ⟨"mobile_optimization", "t2", "d2"⟩,
   ⟨"seo_optimization", "t3", "d3"⟩, ⟨"performance_boost", "t4", "d4"⟩]

/-- C7: the improvement narrative is exactly the specification's
construction for every input, and on the literal scenarios: with the four
recommendation types and one feature the narrative contains
`"modern design, mobile optimization, SEO optimization"`,
`"and 1 other improvements"`, `"Implemented 4 key improvements"` and
`"Features 1 modern web components"`; with no recommendations it states
`"Implemented 0 key improvements"`. -/
theorem improvementNarrative_matches_spec :
    (∀ recommendations featuresIncluded,
        generateImprovementDescription recommendations featuresIncluded
          = improvementNarrativeSpec recommendations featuresIncluded)
    ∧ strContains (generateImprovementDescription scenarioRecommendations ["f1"])
        "modern design, mobile optimization, SEO optimization" = true
    ∧ strContains (generateImprovementDescription scenarioRecommendations ["f1"])
        "and 1 other improvements" = true
    ∧ strContains (generateImprovementDescription scenarioRecommendations ["f1"])
        "Implemented 4 key improvements" = true
    ∧ strContains (generateImprovementDescription scenarioRecommendations ["f1"])
        "Features 1 modern web components" = true
    ∧ strContains (generateImprovementDescription [] [])
        "Implemented 0 key improvements" = true := by
  refine ⟨?_, by decide, by decide, by decide, by decide, by decide⟩
  intro recommendations featuresIncluded
  simp only [generateImprovementDescription, improvementNarrativeSpec]
  split_ifs <;> simp [String.append_assoc]

/-- Embedding of `_createHomepagePrompt` (generator.js lines 169-239): the
destructured fields with their `|| ''` / `|| []` defaults, the first-3
recommendation lines, the truthiness-gated color-scheme and booking
clauses, and the exact template literal, with each interpolation turned
into a string append.  (The `websiteContent` parameter of the source is
never read and is omitted.) -/
def createHomepagePrompt (businessName : String) (businessInfo : BusinessInfo)
    (recommendations : List Recommendation) (stylePreference : String)
    (includeBooking : Bool) (colorScheme : Option String) : String :=
  let businessType := businessInfo.business_type
  let industry := businessInfo.industry
  let services := businessInfo.services.getD []
  let description := businessInfo.description.getD ""
  let location := businessInfo.location.getD ""
  let phone := businessInfo.phone.getD ""
  let topRecommendations := String.intercalate "\n"
    ((recommendations.take 3).map (fun r => "- " ++ r.title ++ ": " ++ r.description))
  let colorSchemeText := if jsTruthy colorScheme then
    "Use this color scheme: " ++ colorScheme.getD "" else ""
  let bookingText := if includeBooking then
    "Include a prominent \"Book Appointment\" or \"Schedule Service\" button with data-booking-btn attribute."
  else ""
  let templateGuidance := getIndustryTemplate industry businessType
  "\nCreate a modern, professional homepage for this business:\n\nBusiness Information:\n- Name: "
  ++ businessName
  ++ "\n- Type: " ++ businessType
  ++ "\n- Industry: " ++ industry
  ++ "\n- Description: " ++ description
  ++ "\n- Location: " ++ location
  ++ "\n- Phone: " ++ phone
  ++ "\n- Services: " ++ String.intercalate ", " services
  ++ "\n\nStyle Requirements:\n- Style: " ++ stylePreference
  ++ "\n- " ++ colorSchemeText
  ++ "\n- " ++ bookingText
  ++ "\n\nKey Improvements to Implement:\n" ++ topRecommendations
  ++ "\n\nIndustry-Specific Requirements:\n" ++ templateGuidance
  ++ "\n\nRequirements:\n1. Create a complete HTML page with Tailwind CSS\n2. Include these sections:\n   - Header with navigation and contact info\n   - Hero section with compelling headline and value proposition\n   - Services/features section with icons or images\n   - About/trust section with credibility indicators\n   - Contact section with form and map placeholder\n   - Footer with business details\n3. Make it mobile-responsive with proper breakpoints\n4. Use modern design principles and accessibility\n5. Include clear call-to-action buttons throughout\n6. Optimize for "
  ++ businessType
  ++ " businesses\n7. Include contact information: " ++ phone
  ++ "\n8. Add proper semantic HTML structure\n9. Include meta tags for SEO\n10. Use appropriate color psychology for "
  ++ industry
  ++ "\n\nGenerate only the complete HTML code with embedded Tailwind CSS classes. No explanations.\nThe code should be production-ready, visually appealing, and convert visitors to customers.\n"

/-- The business-identity opening block of the prompt, as the specification
describes it. -/
def promptIdentityBlock (businessName : String) (bi : BusinessInfo) : String :=
  "\nCreate a modern, professional homepage for this business:\n\nBusiness Information:\n- Name: "
  ++ businessName
  ++ "\n- Type: " ++ bi.business_type
  ++ "\n- Industry: " ++ bi.industry
  ++ "\n- Description: " ++ bi.description.getD ""
  ++ "\n- Location: " ++ bi.location.getD ""
  ++ "\n- Phone: " ++ bi.phone.getD ""
  ++ "\n- Services: " ++ String.intercalate ", " (bi.services.getD [])

/-- The booking call-to-action clause of the prompt. -/
def bookingClauseText : String :=
  "Include a prominent \"Book Appointment\" or \"Schedule Service\" button with data-booking-btn attribute."

/-- The fixed requirements block closing the prompt. -/
def promptRequirementsBlock (bi : BusinessInfo) : String :=
  "\n\nRequirements:\n1. Create a complete HTML page with Tailwind CSS\n2. Include these sections:\n   - Header with navigation and contact info\n   - Hero section with compelling headline and value proposition\n   - Services/features section with icons or images\n   - About/trust section with credibility indicators\n   - Contact section with form and map placeholder\n   - Footer with business details\n3. Make it mobile-responsive with proper breakpoints\n4. Use modern design principles and accessibility\n5. Include clear call-to-action buttons throughout\n6. Optimize for "
  ++ bi.business_type
  ++ " businesses\n7. Include contact information: " ++ bi.phone.getD ""
  ++ "\n8. Add proper semantic HTML structure\n9. Include meta tags for SEO\n10. Use appropriate color psychology for "
  ++ bi.industry
  ++ "\n\nGenerate only the complete HTML code with embedded Tailwind CSS classes. No explanations.\nThe code should be production-ready, visually appealing, and convert visitors to customers.\n"

/-- C9: on validated input (the color scheme is either absent or a string
accepted by the validator's hex pattern) the prompt is exactly the
deterministic template: the business-identity block, the style preference,
a color-scheme clause present if and only if a color scheme was supplied, a
booking clause present if and only if booking was requested, the first 3
(or fewer) recommendations rendered as `"- title: description"` lines, the
industry guidance from the catalog, and the fixed requirements block. -/
theorem homepagePrompt_structure (businessName : String) (bi : BusinessInfo)
    (recommendations : List Recommendation) (stylePreference : String)
    (includeBooking : Bool) (colorScheme : Option String)
    (h : colorScheme = none ∨ ∃ s, colorScheme = some s ∧ isHexColor s = true) :
    createHomepagePrompt businessName bi recommendations stylePreference
        includeBooking colorScheme
      = promptIdentityBlock businessName bi
        ++ "\n\nStyle Requirements:\n- Style: " ++ stylePreference
        ++ "\n- " ++ (if colorScheme.isSome then
              "Use this color scheme: " ++ colorScheme.getD "" else "")
        ++ "\n- " ++ (if includeBooking then bookingClauseText else "")
        ++ "\n\nKey Improvements to Implement:\n"
        ++ String.intercalate "\n"
            ((recommendations.take 3).map (fun r => "- " ++ r.title ++ ": " ++ r.description))
        ++ "\n\nIndustry-Specific Requirements:\n"
        ++ getIndustryTemplate bi.industry bi.business_type
        ++ promptRequirementsBlock bi := by
  rcases h with h | ⟨s, h, hs⟩ <;> subst h
  · simp [createHomepagePrompt, promptIdentityBlock, bookingClauseText,
      promptRequirementsBlock, jsTruthy, String.append_assoc]
  · have hne := ne_empty_of_isHexColor hs
    simp [createHomepagePrompt, promptIdentityBlock, bookingClauseText,
      promptRequirementsBlock, jsTruthy, hne, String.append_assoc]

/-- A concrete validated business-info record used by witnesses. -/
def witnessBusinessInfo : BusinessInfo :=
  ⟨"Acme Plumbing", "contractor", "home_services", some "Local plumbing",
   some ["Repairs", "Installs"], some "Springfield", some "555-0100"⟩

/-- Witness for C9 with a supplied hex color scheme and booking enabled. -/
theorem homepagePrompt_structure_witness :
    ((some "#AABB01" : Option String) = none
      ∨ ∃ s, (some "#AABB01" : Option String) = some s ∧ isHexColor s = true)
    ∧ createHomepagePrompt "Acme Plumbing" witnessBusinessInfo
        [⟨"seo_optimization", "SEO", "Improve SEO"⟩] "modern" true (some "#AABB01")
      = promptIdentityBlock "Acme Plumbing" witnessBusinessInfo
        ++ "\n\nStyle Requirements:\n- Style: " ++ "modern"
        ++ "\n- " ++ (if (some "#AABB01" : Option String).isSome then
              "Use this color scheme: " ++ (some "#AABB01" : Option String).getD "" else "")
        ++ "\n- " ++ (if true then bookingClauseText else "")
        ++ "\n\nKey Improvements to Implement:\n"
        ++ String.intercalate "\n"
            (([⟨"seo_optimization", "SEO", "Improve SEO"⟩] :
                List Recommendation).take 3 |>.map
              (fun r => "- " ++ r.title ++ ": " ++ r.description))
        ++ "\n\nIndustry-Specific Requirements:\n"
        ++ getIndustryTemplate witnessBusinessInfo.industry witnessBusinessInfo.business_type
        ++ promptRequirementsBlock witnessBusinessInfo :=
  ⟨Or.inr ⟨"#AABB01", rfl, by decide⟩,
   homepagePrompt_structure "Acme Plumbing" witnessBusinessInfo
     [⟨"seo_optimization", "SEO", "Improve SEO"⟩] "modern" true (some "#AABB01")
     (Or.inr ⟨"#AABB01", rfl, by decide⟩)⟩

/-- C10: at the generation interface an empty-string color scheme behaves
exactly like a null one, because suppliedness is tested by truthiness: the
custom-CSS palette falls back to the industry catalog palette, and the
prompt is identical to the prompt built with no color scheme (so it
contains no color-scheme clause). -/
theorem empty_colorScheme_like_null :
    (∀ industry, getBaseColors (some "") industry = getBaseColors none industry)
    ∧ (∀ businessName bi recommendations stylePreference includeBooking,
        createHomepagePrompt businessName bi recommendations stylePreference
            includeBooking (some "")
          = createHomepagePrompt businessName bi recommendations stylePreference
              includeBooking none) := by
  constructor
  · intro industry
    rfl
  · intro businessName bi recommendations stylePreference includeBooking
    simp [createHomepagePrompt, jsTruthy]

/-- The error taxonomy of the render subsystem: `renderUnavailable` is the
`'Screenshot service not initialized'` error thrown on the not-ready check,
`renderFailed` stands for any error raised and rethrown inside a capture
(content-load timeout, navigation error, capture error). -/
inductive RenderError where
  | renderUnavailable
  | renderFailed
deriving DecidableEq, Repr

/-- The mutable fields of `ScreenshotService`: whether `this.browser` is
non-null, and the `this.isInitialized` flag. -/
structure SSState where
  browser : Bool
  isInitialized : Bool
deriving DecidableEq, Repr

/-- The constructor state: `browser = null`, `isInitialized = false`. -/
def ssInitialState : SSState := ⟨false, false⟩

/-- Embedding of `initialize()` (screenshot service lines 19-55): the
launch outcome is the `launchOk` parameter.  On success both fields are
set; on failure the exception is caught (the function is total, so no
exception ever propagates), `browser` keeps its previous value because the
assignment never ran, and `isInitialized` is set to false (Disabled). -/
def ssInit (launchOk : Bool) (s : SSState) : SSState :=
  if launchOk then ⟨true, true⟩ else ⟨s.browser, false⟩

/-- Embedding of `cleanup()` (screenshot service lines 232-239): only acts
when a browser is open; closes it and clears both fields. -/
def ssCleanup (s : SSState) : SSState :=
  if s.browser then ⟨false, false⟩ else s

/-- Embedding of `isReady()` (screenshot service lines 244-246):
`this.isInitialized && this.browser`. -/
def ssIsReady (s : SSState) : Bool :=
  s.isInitialized && s.browser

/-- The per-call page (execution context) events a capture emits. -/
inductive PageEvent where
  | opened
  | closed
deriving DecidableEq, Repr

/-- Where a `generateScreenshot` call fails, if anywhere: each constructor
is one awaited step of the `try` block that can throw. -/
inductive CaptureOutcome where
  | ok
  | newPageErr
  | viewportErr
  | contentTimeout
  | settleErr
  | captureErr
deriving DecidableEq, Repr

/-- The `try` block of `generateScreenshot`: returns the error (if any),
whether `page` was assigned, and the page events emitted so far.  Only a
failure of `browser.newPage()` itself leaves `page` null. -/
def captureBody (o : CaptureOutcome) : Option RenderError × Bool × List PageEvent :=
  match o with
  | .ok => (none, true, [.opened])
  | .newPageErr => (some .renderFailed, false, [])
  | .viewportErr => (some .renderFailed, true, [.opened])
  | .contentTimeout => (some .renderFailed, true, [.opened])
  | .settleErr => (some .renderFailed, true, [.opened])
  | .captureErr => (some .renderFailed, true, [.opened])

/-- Embedding of `generateScreenshot` (screenshot service lines 64-122):
the not-initialized guard, then the `try`/`catch`/`finally` whose `finally`
closes the page exactly when one was opened, before the result or the
rethrown error reaches the caller.  The second component is the full page
event trace of the call. -/
def ssGenerateScreenshot (s : SSState) (o : CaptureOutcome) :
    Except RenderError Unit × List PageEvent :=
  if !s.isInitialized || !s.browser then
    (Except.error RenderError.renderUnavailable, [])
  else
    let (err?, page, events) := captureBody o
    let events := events ++ (if page then [PageEvent.closed] else [])
    (match err? with
     | none => Except.ok ()
     | some e => Except.error e, events)

/-- C3: for every capture call in the Ready state, on each of the exit
paths the specification enumerates (successful screenshot, content-load
timeout, capture error — every outcome except a failure of page creation
itself) exactly one page is opened and then closed before the call returns
or rethrows; and on every outcome whatsoever the number of opened pages
equals the number of closed pages, so no open per-call context remains. -/
theorem capture_closes_page_on_all_paths (s : SSState) (o : CaptureOutcome)
    (hready : ssIsReady s = true) :
    (o ≠ CaptureOutcome.newPageErr →
      (ssGenerateScreenshot s o).2 = [PageEvent.opened, PageEvent.closed])
    ∧ (ssGenerateScreenshot s o).2.count PageEvent.opened
        = (ssGenerateScreenshot s o).2.count PageEvent.closed := by
  rcases s with ⟨b, i⟩
  revert hready
  cases b <;> cases i <;> cases o <;> decide

/-- Witness for C3: a capture in the Ready state that times out while
loading content still opens and closes exactly one page. -/
theorem capture_closes_page_on_all_paths_witness :
    ssIsReady ⟨true, true⟩ = true
    ∧ (CaptureOutcome.contentTimeout ≠ CaptureOutcome.newPageErr →
        (ssGenerateScreenshot ⟨true, true⟩ CaptureOutcome.contentTimeout).2
          = [PageEvent.opened, PageEvent.closed])
    ∧ (ssGenerateScreenshot ⟨true, true⟩ CaptureOutcome.contentTimeout).2.count PageEvent.opened
        = (ssGenerateScreenshot ⟨true, true⟩ CaptureOutcome.contentTimeout).2.count PageEvent.closed :=
  ⟨by decide,
   (capture_closes_page_on_all_paths ⟨true, true⟩ CaptureOutcome.contentTimeout (by decide)).1,
   (capture_closes_page_on_all_paths ⟨true, true⟩ CaptureOutcome.contentTimeout (by decide)).2⟩

/-- C4: the service state machine.  The engine starts Uninitialized with
`isReady()` false; `initialize()` is a total function (a launch failure is
caught, never rethrown) and a failed launch leaves the engine Disabled with
`isReady()` false; a successful `initialize()` makes `isReady()` true;
after `cleanup()`, `isReady()` is false and every subsequent capture call
fails with the unavailability error; and `cleanup()` is idempotent. -/
theorem renderEngine_state_machine :
    ssIsReady ssInitialState = false
    ∧ (∀ s, ssIsReady (ssInit false s) = false)
    ∧ (∀ s, ssIsReady (ssInit true s) = true)
    ∧ (∀ s, ssIsReady (ssCleanup s) = false)
    ∧ (∀ s o, (ssGenerateScreenshot (ssCleanup s) o).1
        = Except.error RenderError.renderUnavailable)
    ∧ (∀ s, ssCleanup (ssCleanup s) = ssCleanup s) := by
  refine ⟨rfl, ?_, ?_, ?_, ?_, ?_⟩
  · rintro ⟨b, i⟩
    cases b <;> rfl
  · rintro ⟨b, i⟩
    rfl
  · rintro ⟨b, i⟩
    cases b <;> cases i <;> rfl
  · rintro ⟨b, i⟩ o
    cases b <;> cases i <;> rfl
  · rintro ⟨b, i⟩
    cases b <;> cases i <;> rfl

/-- A viewport preset: width, height, device scale factor. -/
structure Viewport where
  width : Nat
  height : Nat
  deviceScaleFactor : Nat
deriving DecidableEq, Repr

/-- The fixed viewport presets of `generateResponsiveScreenshots`
(screenshot service lines 205-209), in object insertion order. -/
def responsiveViewports : List (String × Viewport) :=
  [("desktop", ⟨1200, 800, 1⟩), ("tablet", ⟨768, 1024, 2⟩), ("mobile", ⟨375, 667, 2⟩)]

/-- Embedding of `generateResponsiveScreenshots` (screenshot service lines
204-227): a fold over the presets in insertion order; each iteration calls
`generateScreenshotDataUrl` — abstracted as the `capture` argument, which
returns the data URL or the error that call throws — inside its own
`try`/`catch`, storing the data URL on success and `null` on failure.  The
result is the built-up record as an ordered key/value list. -/
def generateResponsiveScreenshots
    (capture : String → Viewport → Except RenderError String) :
    List (String × Option String) :=
  responsiveViewports.foldl
    (fun screenshots entry =>
      screenshots ++ [(entry.1,
        match capture entry.1 entry.2 with
        | Except.ok dataUrl => some dataUrl
        | Except.error _ => none)])
    []

/-- C5: for every behavior of the per-preset capture, the returned record
has exactly the keys `desktop`, `tablet`, `mobile` in that order, each
entry being that preset's own result with failures isolated to their own
entry; in particular, if the tablet capture throws while the other two
succeed, the record is non-null for desktop and mobile and null for
tablet. -/
theorem responsiveScreenshots_partial_results
    (capture : String → Viewport → Except RenderError String) :
    ((generateResponsiveScreenshots capture).map Prod.fst
        = ["desktop", "tablet", "mobile"])
    ∧ generateResponsiveScreenshots capture
        = [("desktop", (capture "desktop" ⟨1200, 800, 1⟩).toOption),
           ("tablet", (capture "tablet" ⟨768, 1024, 2⟩).toOption),
           ("mobile", (capture "mobile" ⟨375, 667, 2⟩).toOption)]
    ∧ (∀ d m e, capture "desktop" ⟨1200, 800, 1⟩ = Except.ok d →
        capture "tablet" ⟨768, 1024, 2⟩ = Except.error e →
        capture "mobile" ⟨375, 667, 2⟩ = Except.ok m →
        generateResponsiveScreenshots capture
          = [("desktop", some d), ("tablet", none), ("mobile", some m)]) := by
  refine ⟨?_, ?_, ?_⟩
  · simp only [generateResponsiveScreenshots, responsiveViewports, List.foldl]
    cases capture "desktop" ⟨1200, 800, 1⟩ <;>
      cases capture "tablet" ⟨768, 1024, 2⟩ <;>
        cases capture "mobile" ⟨375, 667, 2⟩ <;> rfl
  · simp only [generateResponsiveScreenshots, responsiveViewports, List.foldl]
    cases capture "desktop" ⟨1200, 800, 1⟩ <;>
      cases capture "tablet" ⟨768, 1024, 2⟩ <;>
        cases capture "mobile" ⟨375, 667, 2⟩ <;> rfl
  · intro d m e hd ht hm
    simp only [generateResponsiveScreenshots, responsiveViewports, List.foldl,
      hd, ht, hm]
    rfl

/-- Witness for C5: a capture that fails exactly on the tablet preset
yields null for tablet and the data URLs for desktop and mobile. -/
theorem responsiveScreenshots_partial_results_witness :
    (fun (n : String) (_ : Viewport) =>
        if n = "tablet" then (Except.error RenderError.renderFailed : Except RenderError String)
        else Except.ok ("data:" ++ n)) "desktop" ⟨1200, 800, 1⟩ = Except.ok "data:desktop"
    ∧ generateResponsiveScreenshots
        (fun (n : String) (_ : Viewport) =>
          if n = "tablet" then (Except.error RenderError.renderFailed : Except RenderError String)
          else Except.ok ("data:" ++ n))
        = [("desktop", some "data:desktop"), ("tablet", none), ("mobile", some "data:mobile")] :=
  ⟨rfl,
   (responsiveScreenshots_partial_results
      (fun (n : String) (_ : Viewport) =>
        if n = "tablet" then (Except.error RenderError.renderFailed : Except RenderError String)
        else Except.ok ("data:" ++ n))).2.2
     "data:desktop" "data:mobile" RenderError.renderFailed rfl rfl rfl⟩

/-- The dollar character that starts JavaScript replacement patterns. -/
def dollarChar : Char := '$'

/-- The backquote character (code point 96). -/
def backquoteChar : Char := Char.ofNat 96

/-- The single-quote character (code point 39). -/
def singleQuoteChar : Char := Char.ofNat 39

/-- Locates the first occurrence of `needle` in the text, returning the
text split around it (the search step of JavaScript
`String.prototype.replace` with a string pattern). -/
def splitFirst (needle : List Char) : List Char → Option (List Char × List Char)
  | [] => if needle.isEmpty then some ([], []) else none
  | c :: rest =>
    if needle.isPrefixOf (c :: rest) then
      some ([], List.drop needle.length (c :: rest))
    else
      match splitFirst needle rest with
      | none => none
      | some (pre, post) => some (c :: pre, post)

/-- The GetSubstitution step of JavaScript `String.prototype.replace` for a
string pattern (no capture groups): in the replacement string, `$$` yields
`$`, `$&` the matched text, a dollar-backquote the text before the match, a
dollar-quote the text after the match, and any other `$` is literal. -/
def getSubstitution (matched before after : List Char) : List Char → List Char
  | [] => []
  | c :: rest =>
    if c = dollarChar then
      match rest with
      | [] => [dollarChar]
      | d :: rest2 =>
        if d = dollarChar then dollarChar :: getSubstitution matched before after rest2
        else if d = '&' then matched ++ getSubstitution matched before after rest2
        else if d = backquoteChar then before ++ getSubstitution matched before after rest2
        else if d = singleQuoteChar then after ++ getSubstitution matched before after rest2
        else dollarChar :: d :: getSubstitution matched before after rest2
    else c :: getSubstitution matched before after rest

/-- JavaScript `text.replace(searchValue, replacement)` with string
arguments: replaces the first occurrence of `searchValue`, feeding the
replacement through GetSubstitution; returns the text unchanged when the
pattern does not occur. -/
def jsReplaceFirst (searchValue replacement text : List Char) : List Char :=
  match splitFirst searchValue text with
  | none => text
  | some (pre, post) => pre ++ getSubstitution searchValue pre post replacement ++ post

/-- The literal `<!DOCTYPE html>` tested by `_createCompleteHtml`. -/
def docTypeToken : List Char := "<!DOCTYPE html>".toList

/-- The literal `<html` tested by `_createCompleteHtml`. -/
def htmlTagToken : List Char := "<html".toList

/-- The literal `</head>` used as the replacement target. -/
def headCloseToken : List Char := "</head>".toList

/-- The literal `<style>`. -/
def styleOpenToken : List Char := "<style>".toList

/-- The literal `</style>`. -/
def styleCloseToken : List Char := "</style>".toList

/-- The boilerplate document up to (and including) the indentation before
the optional style block. -/
def boilerplateHead : List Char :=
  "\n<!DOCTYPE html>\n<html lang=\"en\">\n<head>\n    <meta charset=\"UTF-8\">\n    <meta name=\"viewport\" content=\"width=device-width, initial-scale=1.0\">\n    <title>Generated Homepage</title>\n    ".toList

/-- The boilerplate document between the style block and the wrapped
fragment: the default utility stylesheet link, the head close, and the body
open. -/
def boilerplateMid : List Char :=
  "\n    <link href=\"https://cdn.jsdelivr.net/npm/tailwindcss@2.2.19/dist/tailwind.min.css\" rel=\"stylesheet\">\n</head>\n<body>\n    ".toList

/-- The boilerplate document after the wrapped fragment. -/
def boilerplateTail : List Char :=
  "\n</body>\n</html>".toList

/-- Embedding of `_createCompleteHtml` (screenshot service lines 165-196):
a document-looking input (containing the doctype or an `<html` tag) gets
the css injected before `</head>` (or after `<html` when no head exists)
via JavaScript `replace`, and is returned unchanged when the css is empty
(falsy); any other input is wrapped in the generated boilerplate with an
optional style block. -/
def createCompleteHtml (htmlContent cssContent : List Char) : List Char :=
  if containsSub docTypeToken htmlContent || containsSub htmlTagToken htmlContent then
    if cssContent = [] then htmlContent
    else if containsSub headCloseToken htmlContent then
      jsReplaceFirst headCloseToken
        (styleOpenToken ++ cssContent ++ styleCloseToken ++ headCloseToken) htmlContent
    else
      jsReplaceFirst htmlTagToken
        ("<html><head><style>".toList ++ cssContent ++ "</style></head><html".toList)
        htmlContent
  else
    boilerplateHead
    ++ (if cssContent = [] then [] else styleOpenToken ++ cssContent ++ styleCloseToken)
    ++ boilerplateMid ++ htmlContent ++ boilerplateTail

theorem splitFirst_isSome_of_containsSub (needle : List Char) :
    ∀ text, containsSub needle text = true → (splitFirst needle text).isSome = true := by
  intro text
  induction text with
  | nil =>
    intro h
    simp only [containsSub] at h
    simp [splitFirst, h]
  | cons c rest ih =>
    intro h
    by_cases hp : needle.isPrefixOf (c :: rest)
    · simp [splitFirst, hp]
    · simp only [containsSub, Bool.or_eq_true] at h
      rcases h with h | h
    
      · exact absurd h hp
      · have := ih h
        cases hs : splitFirst needle rest with
        | none => rw [hs] at this; simp at this
        | some pq =>
          obtain ⟨p, q⟩ := pq
          simp [splitFirst, hp, hs]

theorem splitFirst_split (needle text : List Char) :
    ∀ pre post, splitFirst needle text = some (pre, post) →
      text = pre ++ needle ++ post := by
  induction text with
  | nil =>
    intro pre post h
    simp only [splitFirst] at h
    split at h
    · rename_i he
      simp only [Option.some.injEq, Prod.mk.injEq] at h
      rw [← h.1, ← h.2]
      simp [List.isEmpty_iff.mp he]
    · exact absurd h (by simp)
  | cons c rest ih =>
    intro pre post h
    simp only [splitFirst] at h
    split at h
    · rename_i hp
      simp only [Option.some.injEq, Prod.mk.injEq] at h
      obtain ⟨t, ht⟩ := List.isPrefixOf_iff_prefix.mp hp
      have hd : List.drop needle.length (c :: rest) = t := by
        rw [← ht]
        exact List.drop_left needle t
      rw [← h.1, ← h.2, hd, List.nil_append, ← ht]
    · rename_i hp
      cases hs : splitFirst needle rest with
      | none =>
        rw [hs] at h
        exact absurd h (by simp)
      | some pq =>
        obtain ⟨p, q⟩ := pq
        rw [hs] at h
        simp only [Option.some.injEq, Prod.mk.injEq] at h
        rw [← h.1, ← h.2, ih p q hs]
        simp

theorem getSubstitution_of_no_dollar (matched before after : List Char) :
    ∀ rep, (∀ c ∈ rep, c ≠ dollarChar) →
      getSubstitution matched before after rep = rep := by
  intro rep
  induction rep with
  | nil => intro _; rfl
  | cons c rest ih =>
    intro h
    have hc : c ≠ dollarChar := h c (List.mem_cons_self c rest)
    have hr := ih (fun x hx => h x (List.mem_cons_of_mem c hx))
    rw [getSubstitution.eq_def]
    simp [hc, hr]

/-- C6 (amended): the document-building step satisfies both shape cases:
a fragment (containing neither the doctype token nor an `<html` tag) with
non-empty css is wrapped in the generated boilerplate — its head holds a
style block with exactly the given css followed by the default utility
stylesheet link, its body holds the original fragment; and a complete
document containing `</head>`, given non-empty css that contains no `$`
character (so no JavaScript replacement pattern can fire), becomes the
original document with `<style>css</style>` inserted immediately before the
first `</head>` and all other content unchanged. -/
theorem createCompleteHtml_document_building (htmlContent cssContent : List Char) :
    (containsSub docTypeToken htmlContent = false →
      containsSub htmlTagToken htmlContent = false →
      cssContent ≠ [] →
      createCompleteHtml htmlContent cssContent
        = boilerplateHead ++ styleOpenToken ++ cssContent ++ styleCloseToken
          ++ boilerplateMid ++ htmlContent ++ boilerplateTail)
    ∧ ((containsSub docTypeToken htmlContent = true
          ∨ containsSub htmlTagToken htmlContent = true) →
      containsSub headCloseToken htmlContent = true →
      cssContent ≠ [] →
      (∀ c ∈ cssContent, c ≠ dollarChar) →
      ∃ pre post, htmlContent = pre ++ headCloseToken ++ post
        ∧ createCompleteHtml htmlContent cssContent
          = pre ++ styleOpenToken ++ cssContent ++ styleCloseToken
            ++ headCloseToken ++ post) := by
  constructor
  · intro h1 h2 hcss
    simp [createCompleteHtml, h1, h2, hcss, List.append_assoc]
  · intro hdoc hhead hcss hnd
    have hcond : (containsSub docTypeToken htmlContent
        || containsSub htmlTagToken htmlContent) = true := by
      rcases hdoc with h | h <;> simp [h]
    have hsome := splitFirst_isSome_of_containsSub headCloseToken htmlContent hhead
    cases hs : splitFirst headCloseToken htmlContent with
    | none =>
      rw [hs] at hsome
      simp at hsome
    | some pq =>
      obtain ⟨pre, post⟩ := pq
      refine ⟨pre, post, splitFirst_split headCloseToken htmlContent pre post hs, ?_⟩
      have hrep : ∀ c ∈ styleOpenToken ++ cssContent ++ styleCloseToken ++ headCloseToken,
          c ≠ dollarChar := by
        intro c hc
        simp only [List.append_assoc, List.mem_append] at hc
        rcases hc with hc | hc | hc | hc
        · exact (by decide : ∀ c ∈ styleOpenToken, c ≠ dollarChar) c hc
        · exact hnd c hc
        · exact (by decide : ∀ c ∈ styleCloseToken, c ≠ dollarChar) c hc
        · exact (by decide : ∀ c ∈ headCloseToken, c ≠ dollarChar) c hc
      simp only [createCompleteHtml]
      rw [if_pos hcond, if_neg hcss, if_pos hhead]
      simp only [jsReplaceFirst, hs]
      rw [getSubstitution_of_no_dollar _ _ _ _ hrep]
      simp [List.append_assoc]

/-- C6 counterexample: on the complete document `<html><head></head></html>`
with the non-empty css `$&`, the insertion goes through JavaScript
`replace`, whose `$&` pattern expands to the matched `</head>`; the built
document is therefore `<html><head><style></head></style></head></html>` —
it contains no style block holding the css (the css `$&` occurs nowhere in
the output), contradicting the claim for this input. -/
theorem createCompleteHtml_dollar_counterexample :
    createCompleteHtml "<html><head></head></html>".toList "$&".toList
      = "<html><head><style></head></style></head></html>".toList
    ∧ containsSub "$&".toList
        (createCompleteHtml "<html><head></head></html>".toList "$&".toList) = false
    ∧ createCompleteHtml "<html><head></head></html>".toList "$&".toList
        ≠ "<html><head><style>$&</style></head></html>".toList := by
  refine ⟨by decide, by decide, by decide⟩

/-- Witness for C6 (amended): the fragment case at `<h1>Hello</h1>` with
css `body{color:red}`, and the complete-document case at
`<html><head></head><body>x</body></html>` with css `h1{color:blue}`. -/
theorem createCompleteHtml_document_building_witness :
    (containsSub docTypeToken "<h1>Hello</h1>".toList = false
      ∧ containsSub htmlTagToken "<h1>Hello</h1>".toList = false
      ∧ "body\x7bcolor:red\x7d".toList ≠ ([] : List Char)
      ∧ createCompleteHtml "<h1>Hello</h1>".toList "body\x7bcolor:red\x7d".toList
          = boilerplateHead ++ styleOpenToken ++ "body\x7bcolor:red\x7d".toList
            ++ styleCloseToken ++ boilerplateMid ++ "<h1>Hello</h1>".toList
            ++ boilerplateTail)
    ∧ (∃ pre post,
        "<html><head></head><body>x</body></html>".toList
          = pre ++ headCloseToken ++ post
        ∧ createCompleteHtml "<html><head></head><body>x</body></html>".toList
            "h1\x7bcolor:blue\x7d".toList
          = pre ++ styleOpenToken ++ "h1\x7bcolor:blue\x7d".toList
            ++ styleCloseToken ++ headCloseToken ++ post) :=
  ⟨⟨by decide, by decide, by decide,
    (createCompleteHtml_document_building "<h1>Hello</h1>".toList
        "body\x7bcolor:red\x7d".toList).1 (by decide) (by decide) (by decide)⟩,
   (createCompleteHtml_document_building
        "<html><head></head><body>x</body></html>".toList
        "h1\x7bcolor:blue\x7d".toList).2
     (Or.inr (by decide)) (by decide) (by decide) (by decide)⟩
